import Mathlib

/-!
Shallow embedding of the client-side conversation/session orchestration layer
of the Legal_chatbot frontend (src/frontend/src/App.js).

Each React event handler is embedded as a pure function on an explicit
`AppState`.  Backend calls are modelled by outcome parameters (the response
the handler observes) and by an emitted list of `Request` values describing
the HTTP requests the handler issues; `window.alert` calls are modelled as an
emitted list of alert strings.  JavaScript truthiness on strings (the empty
string is falsy) is modelled explicitly where the source branches on a
string-valued variable.
-/

namespace LegalChatbot

/-- A chat message as held in the `messages` state (App.js).  In the source a
message object may lack the `relatedQuestions` key (JS `undefined`), modelled
as `none`. -/
structure Msg where
  role : String
  content : String
  relatedQuestions : Option (List String)
deriving Repr, DecidableEq

/-- A conversation summary as held in the `conversations` state. -/
structure ConversationSummary where
  id : String
  title : String
  messageCount : Nat
  updatedAt : String
deriving Repr, DecidableEq

/-- One element of `response.data.messages` from GET /conversations/id. -/
structure HistMsg where
  role : String
  content : String
deriving Repr, DecidableEq

/-- The body of a successful /chat or /chat_vision response:
`{answer, related_questions, conversation_id}`; the latter two fields may be
absent (modelled as `none`). -/
structure ChatResponse where
  answer : String
  relatedQuestions : Option (List String)
  conversationId : Option String
deriving Repr, DecidableEq

/-- The React state of the `App` component (App.js lines 56-74), restricted to
the fields the orchestration layer mutates, plus the localStorage session
(`token`, `user`) as `token`/`storedUser`. -/
structure AppState where
  isAuthenticated : Bool
  user : Option String
  showAuthModal : Bool
  token : Option String
  storedUser : Option String
  messages : List Msg
  input : String
  isLoading : Bool
  selectedImage : Option String
  imagePreview : Option String
  isSpeaking : Bool
  speakingMessageId : Option Nat
  conversations : List ConversationSummary
  currentConversationId : Option String
  sidebarOpen : Bool
  isLoadingConversations : Bool
deriving Repr, DecidableEq

/-- An HTTP request issued by a handler, with the payload fields the source
puts into it.  An omitted `conversation_id` field is `none`. -/
inductive Request where
  | chat (question : String) (conversationId : Option String)
  | chatVision (question : String) (image : String) (conversationId : Option String)
  | getConversations
  | getConversation (id : String)
  | deleteConv (id : String)
  | postLogout
deriving Repr, DecidableEq

/-- Outcome of the /chat or /chat_vision call inside `handleSendMessage`:
either the parsed response body, or a rejection carrying
`error.response?.data?.error` (absent on e.g. a network error). -/
inductive ChatOutcome where
  | success (r : ChatResponse)
  | failure (serverError : Option String)
deriving Repr, DecidableEq

/-- Outcome of the GET /conversations/id call inside `loadConversation`. -/
inductive HistOutcome where
  | success (msgs : List HistMsg)
  | failure
deriving Repr, DecidableEq

/-- Outcome of the GET /conversations call inside `loadConversations`. -/
inductive ListOutcome where
  | success (cs : List ConversationSummary)
  | failure
deriving Repr, DecidableEq

/-- Outcome of the DELETE /conversations/id call. -/
inductive DeleteOutcome where
  | success
  | failure
deriving Repr, DecidableEq

/-- Outcome of the POST /logout call (its failure is only logged). -/
inductive LogoutOutcome where
  | success
  | failure
deriving Repr, DecidableEq

/-- JavaScript truthiness of a possibly-null string: `null`/`undefined` and
the empty string are falsy, every other string is truthy. -/
def truthyOptStr : Option String → Bool
  | none => false
  | some s => !(s == "")

/-- JavaScript `String.prototype.trim`: strip whitespace from both ends,
written on the underlying character list so that it evaluates by kernel
reduction. -/
def jsTrim (s : String) : String :=
  ⟨(((s.data.dropWhile Char.isWhitespace).reverse.dropWhile Char.isWhitespace).reverse)⟩

/-- App.js line 265: `const query = queryOverride || input.trim();` -/
def effectiveQuery (queryOverride : Option String) (input : String) : String :=
  match queryOverride with
  | some s => if s == "" then jsTrim input else s
  | none => jsTrim input

/-- App.js line 266: the early-return guard of `handleSendMessage`:
`if ((!query && !selectedImage) || isLoading) return;` -/
def submitRejected (s : AppState) (queryOverride : Option String) : Bool :=
  (effectiveQuery queryOverride s.input == "" && s.selectedImage.isNone) || s.isLoading

/-- App.js lines 271-279: if the last message exists and has role
`assistant`, replace it with a copy whose `relatedQuestions` is `[]`. -/
def clearTrailingRelated : List Msg → List Msg
  | [] => []
  | [m] =>
    if m.role == "assistant" then [{ m with relatedQuestions := some [] }] else [m]
  | m :: m2 :: rest => m :: clearTrailingRelated (m2 :: rest)

/-- The user message object built at App.js line 281 (no `relatedQuestions`
key). -/
def userMsg (query : String) : Msg :=
  { role := "user", content := query, relatedQuestions := none }

/-- App.js lines 268-283: the functional `setMessages` update of
`handleSendMessage` — clear the trailing assistant message's related
questions when `queryOverride` is truthy, then append the user message. -/
def optimisticMessages (messages : List Msg) (queryOverride : Option String)
    (query : String) : List Msg :=
  (if truthyOptStr queryOverride then clearTrailingRelated messages else messages)
    ++ [userMsg query]

/-- App.js lines 294-296 and 302-304: the `conversation_id` field is put into
the payload only when `currentConversationId` is truthy. -/
def requestCid (cid : Option String) : Option String :=
  if truthyOptStr cid then cid else none

/-- App.js lines 290-305: route to /chat_vision when an image is staged,
else /chat. -/
def buildRequest (query : String) (image : Option String) (cid : Option String) : Request :=
  match image with
  | some img => .chatVision query img (requestCid cid)
  | none => .chat query (requestCid cid)

/-- The synchronous prefix of `handleSendMessage` (App.js lines 264-306): the
guard, the optimistic message append, clearing the input, raising `isLoading`
and building the backend request.  Returns `(state, none)` when the guard
rejects the submission. -/
def submitStart (s : AppState) (queryOverride : Option String) :
    AppState × Option Request :=
  if submitRejected s queryOverride then (s, none)
  else
    let query := effectiveQuery queryOverride s.input
    ({ s with
        messages := optimisticMessages s.messages queryOverride query,
        input := "",
        isLoading := true },
     some (buildRequest query s.selectedImage s.currentConversationId))

/-- `loadConversations` (App.js lines 182-192): issues GET /conversations;
on success replaces the summary list; on failure only logs; in both cases
`isLoadingConversations` ends up false. -/
def loadConversationsRun (s : AppState) : ListOutcome → AppState × List Request
  | .success cs =>
    ({ s with conversations := cs, isLoadingConversations := false },
     [.getConversations])
  | .failure =>
    ({ s with isLoadingConversations := false }, [.getConversations])

/-- App.js line 324: `error.response?.data?.error || "Sorry, something went
wrong."` -/
def errorText : Option String → String
  | some e => if e == "" then "Sorry, something went wrong." else e
  | none => "Sorry, something went wrong."

/-- The continuation of `handleSendMessage` after the awaited chat request
(App.js lines 288-328), applied to the optimistic state `s1`.  `hadImage` and
`capturedCid` are `selectedImage.isSome` and `currentConversationId` as
captured by the handler's closure at call time. -/
def submitFinish (s1 : AppState) (hadImage : Bool) (capturedCid : Option String)
    (req : Request) (out : ChatOutcome) (lo : ListOutcome) :
    AppState × List Request :=
  match out with
  | .success r =>
    let s2 := if hadImage then { s1 with selectedImage := none, imagePreview := none }
              else s1
    let s3r :=
      if !truthyOptStr capturedCid && truthyOptStr r.conversationId then
        loadConversationsRun { s2 with currentConversationId := r.conversationId } lo
      else (s2, [])
    ({ s3r.1 with
        messages := s3r.1.messages ++
          [{ role := "assistant", content := r.answer,
             relatedQuestions := some (r.relatedQuestions.getD []) }],
        isLoading := false },
     req :: s3r.2)
  | .failure err =>
    ({ s1 with
        messages := s1.messages ++
          [{ role := "assistant", content := errorText err,
             relatedQuestions := some [] }],
        isLoading := false },
     [req])

/-- `handleSendMessage` (App.js lines 264-329) run to completion: the
synchronous prefix followed by the response continuation.  `out` is the chat
call's outcome, `lo` the outcome of the nested `loadConversations` refresh
(used only when a new conversation id is adopted). -/
def handleSendMessage (s : AppState) (queryOverride : Option String)
    (out : ChatOutcome) (lo : ListOutcome) : AppState × List Request :=
  match submitStart s queryOverride with
  | (_, none) => (s, [])
  | (s1, some req) =>
    submitFinish s1 s.selectedImage.isSome s.currentConversationId req out lo

/-- `handleToggleSpeech` (App.js lines 248-262), state effect only (the
`speech.cancel`/`speech.speak` capability calls carry no component state). -/
def handleToggleSpeech (s : AppState) (messageId : Nat) : AppState :=
  if s.isSpeaking && s.speakingMessageId == some messageId then
    { s with isSpeaking := false, speakingMessageId := none }
  else
    { s with isSpeaking := true, speakingMessageId := some messageId }

/-- The `onEndCallback` installed on every utterance (App.js lines 257-260):
`setIsSpeaking(false); setSpeakingMessageId(null);` — run when the synthesis
capability reports completion of an utterance, whichever utterance it was. -/
def speechOnEnd (s : AppState) : AppState :=
  { s with isSpeaking := false, speakingMessageId := none }

/-- App.js lines 198-202: history messages are mapped into `Msg`s with
`relatedQuestions` equal to `[]` for assistant messages and absent
(`undefined`) otherwise. -/
def mapHistMsg (m : HistMsg) : Msg :=
  { role := m.role, content := m.content,
    relatedQuestions := if m.role == "assistant" then some [] else none }

/-- The synchronous prefix of `loadConversation` (App.js line 196-197):
`setIsLoading(true)` and the GET /conversations/id request. -/
def loadConversationStart (s : AppState) (conversationId : String) :
    AppState × Request :=
  ({ s with isLoading := true }, .getConversation conversationId)

/-- The continuation of `loadConversation` after the awaited fetch
(App.js lines 198-211): on success replace the message list and the active
id and close the sidebar; on failure alert; always lower `isLoading`. -/
def loadConversationFinish (s1 : AppState) (conversationId : String) :
    HistOutcome → AppState × List String
  | .success msgs =>
    ({ s1 with
        messages := msgs.map mapHistMsg,
        currentConversationId := some conversationId,
        sidebarOpen := false,
        isLoading := false }, [])
  | .failure =>
    ({ s1 with isLoading := false }, ["Failed to load conversation"])

/-- `loadConversation` (App.js lines 194-212) run to completion; returns the
new state, the requests issued, and the alerts shown. -/
def loadConversation (s : AppState) (conversationId : String) (out : HistOutcome) :
    AppState × List Request × List String :=
  let sr := loadConversationStart s conversationId
  let sa := loadConversationFinish sr.1 conversationId out
  (sa.1, [sr.2], sa.2)

/-- `deleteConversation` (App.js lines 230-246): confirmation guard, DELETE
request, conditional clearing of the active conversation, then a
`loadConversations` refresh; on failure an alert. -/
def deleteConversation (s : AppState) (conversationId : String) (confirmed : Bool)
    (out : DeleteOutcome) (lo : ListOutcome) :
    AppState × List Request × List String :=
  if !confirmed then (s, [], [])
  else
    match out with
    | .success =>
      let s1 := if some conversationId == s.currentConversationId then
                  { s with messages := [], currentConversationId := none }
                else s
      let s2r := loadConversationsRun s1 lo
      (s2r.1, .deleteConv conversationId :: s2r.2, [])
    | .failure =>
      (s, [.deleteConv conversationId], ["Failed to delete conversation"])

/-- `handleLogout` (App.js lines 165-180): POST /logout is best-effort; the
`finally` block clears the stored session, the auth flags, the messages, the
conversation list and the active id whatever the outcome. -/
def handleLogout (s : AppState) (_out : LogoutOutcome) : AppState × List Request :=
  ({ s with
      token := none, storedUser := none,
      isAuthenticated := false, user := none,
      messages := [], conversations := [],
      currentConversationId := none,
      showAuthModal := true },
   [.postLogout])

/-- A concrete authenticated state used by witnesses and counterexamples. -/
def baseState : AppState :=
  { isAuthenticated := true, user := some "alice", showAuthModal := false,
    token := some "tok", storedUser := some "alice",
    messages := [], input := "", isLoading := false,
    selectedImage := none, imagePreview := none,
    isSpeaking := false, speakingMessageId := none,
    conversations := [], currentConversationId := none,
    sidebarOpen := false, isLoadingConversations := false }

/-- Helper: a submit against a busy orchestrator changes nothing and issues
no request (the guard at App.js line 266). -/
theorem submit_noop_of_busy (s : AppState) (o : Option String) (out : ChatOutcome)
    (lo : ListOutcome) (h : s.isLoading = true) :
    handleSendMessage s o out lo = (s, []) := by
  have hrej : submitRejected s o = true := by
    simp [submitRejected, h]
  simp [handleSendMessage, submitStart, hrej]

/-- Helper: the effect of the trailing-message update on a list with an
explicit last element. -/
theorem clearTrailingRelated_append (ms : List Msg) (m : Msg) :
    clearTrailingRelated (ms ++ [m])
      = ms ++ (if m.role == "assistant" then [{ m with relatedQuestions := some [] }]
               else [m]) := by
  induction ms with
  | nil => simp [clearTrailingRelated]
  | cons a as ih =>
    cases as with
    | nil => simp [clearTrailingRelated]
    | cons b bs => simpa [clearTrailingRelated] using ih

/-- Helper: an accepted submit runs the optimistic prefix and then the
response continuation on the captured attachment and conversation id. -/
theorem handleSendMessage_accepted (s : AppState) (o : Option String)
    (out : ChatOutcome) (lo : ListOutcome) (hrej : submitRejected s o = false) :
    handleSendMessage s o out lo
      = submitFinish (submitStart s o).1 s.selectedImage.isSome s.currentConversationId
          (buildRequest (effectiveQuery o s.input) s.selectedImage s.currentConversationId)
          out lo := by
  simp [handleSendMessage, submitStart, hrej]

/-- C1: at most one turn is in flight at a time.  An accepted submit raises
the busy flag for the whole turn, and a submit issued while the busy flag is
up is a no-op: the state (messages, input, staged image, everything) is
unchanged and no backend request is built. -/
theorem submit_single_flight :
    (∀ (s : AppState) (o : Option String), submitRejected s o = false →
        ((submitStart s o).1).isLoading = true) ∧
    (∀ (s : AppState) (o : Option String) (out : ChatOutcome) (lo : ListOutcome),
        s.isLoading = true → handleSendMessage s o out lo = (s, [])) := by
  refine ⟨fun s o h => ?_, fun s o out lo h => submit_noop_of_busy s o out lo h⟩
  simp [submitStart, h]

/-- C1 witness: a concrete accepted submit is mid-flight busy, and a concrete
submit against a busy state is the identity with no request. -/
theorem submit_single_flight_witness :
    ((submitStart { baseState with input := "hello" } (some "hi")).1).isLoading = true ∧
    handleSendMessage { baseState with isLoading := true } none (.failure none) .failure
      = ({ baseState with isLoading := true }, []) :=
  ⟨submit_single_flight.1 _ (some "hi") (by decide),
   submit_single_flight.2 _ none (.failure none) .failure (by decide)⟩

/-- C10: conversation loading shares the same busy flag with the turn
orchestrator: in the state reached right after a history fetch has started
(and before it completes), any submit call is a no-op that changes no state
and issues no request. -/
theorem load_in_flight_blocks_submit (s : AppState) (conversationId : String)
    (o : Option String) (out : ChatOutcome) (lo : ListOutcome) :
    handleSendMessage (loadConversationStart s conversationId).1 o out lo
      = ((loadConversationStart s conversationId).1, []) :=
  submit_noop_of_busy _ o out lo (by simp [loadConversationStart])

/-- C2 counterexample: start speaking message 0, supersede it by toggling
message 1 (state Speaking 1), then deliver utterance 0's completion signal:
the state does NOT remain Speaking 1 — the unconditional completion callback
clears it, refuting the claim at this concrete input. -/
theorem stale_completion_cex :
    (handleToggleSpeech (handleToggleSpeech baseState 0) 1).isSpeaking = true ∧
    (handleToggleSpeech (handleToggleSpeech baseState 0) 1).speakingMessageId = some 1 ∧
    ¬ ((speechOnEnd (handleToggleSpeech (handleToggleSpeech baseState 0) 1)).speakingMessageId
        = some 1) := by decide

/-- C2 amended: the completion callback has no staleness guard: for every
state Speaking(j) reached by a toggle issued after utterance u started, the
later arrival of u's completion signal transitions the controller to Silent
(clearing the active index) instead of leaving Speaking(j). -/
theorem stale_completion_clears_to_silent (s : AppState) (u j : Nat) (h : u ≠ j) :
    (handleToggleSpeech (handleToggleSpeech s u) j).isSpeaking = true ∧
    (handleToggleSpeech (handleToggleSpeech s u) j).speakingMessageId = some j ∧
    (speechOnEnd (handleToggleSpeech (handleToggleSpeech s u) j)).isSpeaking = false ∧
    (speechOnEnd (handleToggleSpeech (handleToggleSpeech s u) j)).speakingMessageId = none := by
  by_cases h1 : s.isSpeaking && s.speakingMessageId == some u
  · simp [handleToggleSpeech, speechOnEnd, h1, beq_iff_eq]
  · simp [handleToggleSpeech, speechOnEnd, h1, beq_iff_eq, h]

/-- C2 amended witness: the scenario at concrete indices 0 and 1. -/
theorem stale_completion_clears_witness :
    (handleToggleSpeech (handleToggleSpeech baseState 0) 1).isSpeaking = true ∧
    (handleToggleSpeech (handleToggleSpeech baseState 0) 1).speakingMessageId = some 1 ∧
    (speechOnEnd (handleToggleSpeech (handleToggleSpeech baseState 0) 1)).isSpeaking = false ∧
    (speechOnEnd (handleToggleSpeech (handleToggleSpeech baseState 0) 1)).speakingMessageId
      = none :=
  stale_completion_clears_to_silent baseState 0 1 (by decide)

/-- C8: logout clears the stored session (token and user), the message list,
the conversation summary list and the active conversation id, and transitions
to Unauthenticated, for every starting state and whether the backend logout
call succeeds or fails. -/
theorem logout_unconditionally_clears (s : AppState) (out : LogoutOutcome) :
    (handleLogout s out).1.token = none ∧
    (handleLogout s out).1.storedUser = none ∧
    (handleLogout s out).1.user = none ∧
    (handleLogout s out).1.messages = [] ∧
    (handleLogout s out).1.conversations = [] ∧
    (handleLogout s out).1.currentConversationId = none ∧
    (handleLogout s out).1.isAuthenticated = false ∧
    (handleLogout s out).1.showAuthModal = true := by
  simp [handleLogout]

/-- A state with a trailing assistant message carrying a follow-up
suggestion, used to exercise the overrideText path. -/
def c3State : AppState :=
  { baseState with
      messages := [{ role := "assistant", content := "ans",
                     relatedQuestions := some ["q1"] }],
      input := "hi" }

/-- C3 counterexample: submit invoked WITH an overrideText (the empty
string, which a follow-up button whose question text is empty produces) does
not clear the trailing assistant message's relatedQuestions: the run appends
the user turn while the suggestion list survives, refuting the claim as
stated. -/
theorem override_empty_does_not_clear_cex :
    (handleSendMessage c3State (some "") (.failure none) .failure).1.messages
      = [{ role := "assistant", content := "ans", relatedQuestions := some ["q1"] },
         userMsg "hi",
         { role := "assistant", content := "Sorry, something went wrong.",
           relatedQuestions := some [] }] ∧
    ¬ ((handleSendMessage c3State (some "") (.failure none) .failure).1.messages.head?.map
        Msg.relatedQuestions = some (some [])) := by decide

/-- C3 amended: whenever submit is invoked with a non-empty overrideText,
the trailing assistant message's relatedQuestions are cleared before the new
user message is appended; with no overrideText, or with an empty one (which
JS truthiness treats as absent), no existing message is touched — the user
message is appended to the list as it was. -/
theorem override_clears_trailing_related :
    (∀ (s : AppState) (q : String) (ms : List Msg) (m : Msg),
        q ≠ "" → submitRejected s (some q) = false →
        s.messages = ms ++ [m] → m.role = "assistant" →
        (submitStart s (some q)).1.messages
          = ms ++ [{ m with relatedQuestions := some [] }, userMsg q]) ∧
    (∀ s : AppState, submitRejected s none = false →
        (submitStart s none).1.messages = s.messages ++ [userMsg (jsTrim s.input)]) ∧
    (∀ s : AppState, submitRejected s (some "") = false →
        (submitStart s (some "")).1.messages
          = s.messages ++ [userMsg (jsTrim s.input)]) := by
  refine ⟨fun s q ms m hq hrej hms hrole => ?_, fun s hrej => ?_, fun s hrej => ?_⟩
  · simp [submitStart, hrej, optimisticMessages, truthyOptStr, effectiveQuery, hq, hms,
      clearTrailingRelated_append, hrole]
  · simp [submitStart, hrej, optimisticMessages, truthyOptStr, effectiveQuery]
  · simp [submitStart, hrej, optimisticMessages, truthyOptStr, effectiveQuery]

/-- C3 amended witness: clicking the non-empty suggestion "q1" under the
trailing assistant message clears its suggestion list before the user turn
is appended. -/
theorem override_clears_witness :
    (submitStart c3State (some "q1")).1.messages
      = [{ role := "assistant", content := "ans", relatedQuestions := some [] },
         userMsg "q1"] := by
  simpa using override_clears_trailing_related.1 c3State "q1" []
    { role := "assistant", content := "ans", relatedQuestions := some ["q1"] }
    (by decide) (by decide) rfl rfl

/-- C4: for every accepted submit whose backend request fails, exactly one
assistant message is appended after the optimistic user turn; its content is
the server-provided error text or the generic fallback, its relatedQuestions
are empty; the staged image and its preview are unchanged and the
orchestrator returns to Idle. -/
theorem turn_failure_appends_one_error (s : AppState) (o : Option String)
    (err : Option String) (lo : ListOutcome)
    (hrej : submitRejected s o = false) :
    ∃ m : Msg,
      (handleSendMessage s o (.failure err) lo).1.messages
        = (submitStart s o).1.messages ++ [m] ∧
      m.role = "assistant" ∧
      ((∃ e, err = some e ∧ m.content = e) ∨ m.content = "Sorry, something went wrong.") ∧
      m.relatedQuestions = some [] ∧
      (handleSendMessage s o (.failure err) lo).1.selectedImage = s.selectedImage ∧
      (handleSendMessage s o (.failure err) lo).1.imagePreview = s.imagePreview ∧
      (handleSendMessage s o (.failure err) lo).1.isLoading = false := by
  rw [handleSendMessage_accepted s o (.failure err) lo hrej]
  refine ⟨{ role := "assistant", content := errorText err, relatedQuestions := some [] },
    by simp [submitFinish], rfl, ?_, rfl,
    by simp [submitFinish, submitStart, hrej],
    by simp [submitFinish, submitStart, hrej],
    by simp [submitFinish]⟩
  match err with
  | none => exact Or.inr rfl
  | some e =>
    by_cases he : e == ""
    · exact Or.inr (by simp [errorText, he])
    · exact Or.inl ⟨e, rfl, by simp [errorText, he]⟩

/-- A concrete state with pending input and a staged image, used by the C4
witness. -/
def c4State : AppState :=
  { baseState with
    input := "hi"
    selectedImage := some "img.png"
    imagePreview := some "blob:url" }

/-- C4 witness: a concrete failed turn with a staged image and a
server-provided error text. -/
theorem turn_failure_witness :
    ∃ m : Msg,
      (handleSendMessage c4State none (.failure (some "boom")) .failure).1.messages
        = (submitStart c4State none).1.messages ++ [m] ∧
      m.role = "assistant" ∧
      ((∃ e, (some "boom" : Option String) = some e ∧ m.content = e) ∨
        m.content = "Sorry, something went wrong.") ∧
      m.relatedQuestions = some [] ∧
      (handleSendMessage c4State none (.failure (some "boom")) .failure).1.selectedImage
        = c4State.selectedImage ∧
      (handleSendMessage c4State none (.failure (some "boom")) .failure).1.imagePreview
        = c4State.imagePreview ∧
      (handleSendMessage c4State none (.failure (some "boom")) .failure).1.isLoading
        = false :=
  turn_failure_appends_one_error c4State none (some "boom") .failure (by decide)

/-- Helper: whatever the outcome, the first request a completed turn issues
is the chat request built at submission time. -/
theorem submitFinish_requests_head (s1 : AppState) (b : Bool) (cc : Option String)
    (req : Request) (out : ChatOutcome) (lo : ListOutcome) :
    (submitFinish s1 b cc req out lo).2.head? = some req := by
  cases out <;> simp [submitFinish]

/-- A state with an active conversation whose id is the empty string (as the
backend may hand out via POST /conversations/new), used by the C5
counterexample. -/
def c5State : AppState :=
  { baseState with
    input := "hi"
    currentConversationId := some "" }

/-- C5 counterexample: an active conversation exists (the id field is set,
to the empty string), yet the accepted submit issues a /chat request with no
conversation_id in the payload, refuting the only-if direction of the claim
at this concrete input. -/
theorem cid_omitted_for_empty_active_id_cex :
    c5State.currentConversationId.isSome = true ∧
    (handleSendMessage c5State none (.failure none) .failure).2
      = [Request.chat "hi" none] := by decide

/-- C5 amended: an accepted submit is routed by attachment state — the
vision endpoint with the multipart payload when an image is staged, the text
endpoint otherwise — and the payload's conversation_id, when present, is the
active conversation id; it is present if and only if the active conversation
id is JS-truthy (non-null and non-empty) at submission time. -/
theorem request_routing_and_cid (s : AppState) (o : Option String) (out : ChatOutcome)
    (lo : ListOutcome) (hrej : submitRejected s o = false) :
    ∃ c : Option String,
      (∀ img, s.selectedImage = some img →
        (handleSendMessage s o out lo).2.head?
          = some (Request.chatVision (effectiveQuery o s.input) img c)) ∧
      (s.selectedImage = none →
        (handleSendMessage s o out lo).2.head?
          = some (Request.chat (effectiveQuery o s.input) c)) ∧
      (c.isSome = true ↔ truthyOptStr s.currentConversationId = true) ∧
      (∀ cid, c = some cid → s.currentConversationId = some cid) := by
  refine ⟨requestCid s.currentConversationId, ?_, ?_, ?_, ?_⟩
  · intro img himg
    rw [handleSendMessage_accepted s o out lo hrej]
    simp [submitFinish_requests_head, buildRequest, himg]
  · intro hnone
    rw [handleSendMessage_accepted s o out lo hrej]
    simp [submitFinish_requests_head, buildRequest, hnone]
  · rcases hc : s.currentConversationId with _ | cid
    · simp [requestCid, truthyOptStr, hc]
    · by_cases hcid : cid == "" <;> simp [requestCid, truthyOptStr, hc, hcid]
  · intro cid h
    by_cases ht : truthyOptStr s.currentConversationId = true
    · simpa [requestCid, ht] using h
    · rw [requestCid, if_neg ht] at h
      exact absurd h (by simp)

/-- A state with pending input and an active non-empty conversation id, used
by the C5 witness. -/
def c5WitnessState : AppState :=
  { baseState with
    input := "hi"
    currentConversationId := some "c1" }

/-- C5 amended witness: the routing statement at a concrete accepted
submit. -/
theorem request_routing_witness :
    ∃ c : Option String,
      (∀ img, c5WitnessState.selectedImage = some img →
        (handleSendMessage c5WitnessState none (.failure none) .failure).2.head?
          = some (Request.chatVision (effectiveQuery none c5WitnessState.input) img c)) ∧
      (c5WitnessState.selectedImage = none →
        (handleSendMessage c5WitnessState none (.failure none) .failure).2.head?
          = some (Request.chat (effectiveQuery none c5WitnessState.input) c)) ∧
      (c.isSome = true ↔ truthyOptStr c5WitnessState.currentConversationId = true) ∧
      (∀ cid, c = some cid → c5WitnessState.currentConversationId = some cid) :=
  request_routing_and_cid c5WitnessState none (.failure none) .failure (by decide)

/-- C6: a successful select(id) replaces the message list wholesale with the
fetched history (same roles and contents, in order) and makes id the active
conversation; a failed select leaves the active id and the message list
exactly as they were and surfaces an alert. -/
theorem select_replaces_or_preserves (s : AppState) (conversationId : String) :
    (∀ msgs : List HistMsg,
        (loadConversation s conversationId (.success msgs)).1.messages.map
            (fun m => (m.role, m.content))
          = msgs.map (fun h => (h.role, h.content)) ∧
        (loadConversation s conversationId (.success msgs)).1.currentConversationId
          = some conversationId) ∧
    ((loadConversation s conversationId .failure).1.currentConversationId
        = s.currentConversationId ∧
      (loadConversation s conversationId .failure).1.messages = s.messages ∧
      (loadConversation s conversationId .failure).2.2
        = ["Failed to load conversation"]) := by
  refine ⟨fun msgs => ⟨?_, ?_⟩, ?_, ?_, ?_⟩ <;>
    simp [loadConversation, loadConversationStart, loadConversationFinish,
      List.map_map, Function.comp, mapHistMsg]

/-- C7: after a successful confirmed delete(id), if id was the active
conversation the active id and message list are cleared, and if it was not
they are unchanged; in either case the summary list is refreshed afterwards
(the DELETE is followed by a GET /conversations whose result replaces the
summary list). -/
theorem delete_scopes_clear_and_refreshes (s : AppState) (conversationId : String)
    (lo : ListOutcome) :
    (s.currentConversationId = some conversationId →
        (deleteConversation s conversationId true .success lo).1.currentConversationId
            = none ∧
        (deleteConversation s conversationId true .success lo).1.messages = []) ∧
    (s.currentConversationId ≠ some conversationId →
        (deleteConversation s conversationId true .success lo).1.currentConversationId
            = s.currentConversationId ∧
        (deleteConversation s conversationId true .success lo).1.messages = s.messages) ∧
    (deleteConversation s conversationId true .success lo).2.1
        = [Request.deleteConv conversationId, Request.getConversations] ∧
    (∀ cs, lo = .success cs →
        (deleteConversation s conversationId true .success lo).1.conversations = cs) := by
  refine ⟨fun h => ?_, fun h => ?_, ?_, fun cs hcs => ?_⟩
  · cases lo <;> simp [deleteConversation, loadConversationsRun, h]
  · have hbeq : (some conversationId == s.currentConversationId) = false := by
      rcases hc : s.currentConversationId with _ | c
      · rfl
      · rw [hc] at h
        simp only [beq_eq_false_iff_ne, ne_eq]
        intro he
        exact h he.symm
    cases lo <;> simp [deleteConversation, loadConversationsRun, hbeq]
  · cases lo <;> simp [deleteConversation, loadConversationsRun]
  · subst hcs
    simp [deleteConversation, loadConversationsRun]

/-- A state whose active conversation is "c1" and whose message list is
non-empty, used by the C7 witness. -/
def c7State : AppState :=
  { c3State with currentConversationId := some "c1" }

/-- C7 witness: both branches at concrete inputs — deleting the active
conversation "c1" clears the active id and messages, deleting non-active
"c2" preserves them. -/
theorem delete_scopes_witness :
    ((deleteConversation c7State "c1" true .success (.success [])).1.currentConversationId
        = none ∧
      (deleteConversation c7State "c1" true .success (.success [])).1.messages = []) ∧
    ((deleteConversation c7State "c2" true .success
          (.success [])).1.currentConversationId = c7State.currentConversationId ∧
      (deleteConversation c7State "c2" true .success (.success [])).1.messages
        = c7State.messages) :=
  ⟨(delete_scopes_clear_and_refreshes c7State "c1" (.success [])).1 (by decide),
   (delete_scopes_clear_and_refreshes c7State "c2" (.success [])).2.1 (by decide)⟩

/-- C9: every message produced by a successful select(id) has empty
relatedQuestions when its role is assistant and none otherwise, whatever the
backend history contained: follow-up suggestions never reappear for messages
loaded from history. -/
theorem history_messages_have_no_suggestions (s : AppState) (conversationId : String)
    (msgs : List HistMsg) (m : Msg)
    (hm : m ∈ (loadConversation s conversationId (.success msgs)).1.messages) :
    (m.role = "assistant" → m.relatedQuestions = some []) ∧
    (¬ m.role = "assistant" → m.relatedQuestions = none) := by
  simp only [loadConversation, loadConversationStart, loadConversationFinish,
    List.mem_map] at hm
  obtain ⟨h, _, rfl⟩ := hm
  constructor
  · intro hrole
    simp only [mapHistMsg] at hrole ⊢
    simp [hrole]
  · intro hrole
    simp only [mapHistMsg] at hrole ⊢
    simp only [beq_iff_eq]
    rw [if_neg hrole]

/-- C9 witness: a concrete loaded history with one assistant and one user
message, checked at the assistant message. -/
theorem history_messages_witness :
    ((Msg.mk "assistant" "a" (some [])).role = "assistant" →
      (Msg.mk "assistant" "a" (some [])).relatedQuestions = some []) ∧
    (¬ (Msg.mk "assistant" "a" (some [])).role = "assistant" →
      (Msg.mk "assistant" "a" (some [])).relatedQuestions = none) :=
  history_messages_have_no_suggestions baseState "c1"
    [HistMsg.mk "assistant" "a", HistMsg.mk "user" "u"]
    (Msg.mk "assistant" "a" (some [])) (by decide)

end LegalChatbot
